import Mathlib

/-!
# AShooterProjectile: the sticky-bomb projectile of ShooterGame

A shallow embedding of `Source/ShooterGame/Private/Weapons/ShooterProjectile.cpp`.

* The actor is a record of the members the source reads and writes.
* Every member function is a pure function from the actor (and the world it
  lives in) to the new actor together with the list of calls it makes to
  engine collaborators (damage dispatcher, effect spawner, audio, scene
  query, log), in program order.
* `float` values are exact rationals: rounding is not modelled.
* Object references (classes, actors, controllers) are natural numbers; a
  null pointer or an expired weak pointer is `none`.
-/

namespace ShooterGame

/-! ## Engine value types -/

/-- Engine vector of three floats. -/
structure FVector where
  X : ℚ
  Y : ℚ
  Z : ℚ
deriving DecidableEq

namespace FVector

/-- The vector `FVector::ZeroVector`. -/
def ZeroVector : FVector := ⟨0, 0, 0⟩

/-- Componentwise sum, `operator+`. -/
def add (a b : FVector) : FVector := ⟨a.X + b.X, a.Y + b.Y, a.Z + b.Z⟩

/-- Componentwise difference, `operator-`. -/
def sub (a b : FVector) : FVector := ⟨a.X - b.X, a.Y - b.Y, a.Z - b.Z⟩

/-- Scaling by a float, `operator*(float)`. -/
def scale (a : FVector) (k : ℚ) : FVector := ⟨a.X * k, a.Y * k, a.Z * k⟩

/-- Unary minus. -/
def neg (a : FVector) : FVector := ⟨-a.X, -a.Y, -a.Z⟩

/-- Squared length. -/
def SizeSquared (a : FVector) : ℚ := a.X * a.X + a.Y * a.Y + a.Z * a.Z

/-- Modelled from the spec: `FVector::IsNearlyZero` is engine code; the spec
describes it as "velocity magnitude below a small epsilon". The magnitude is
compared through its square. -/
def IsNearlyZero (a : FVector) (Tolerance : ℚ) : Bool :=
  decide (a.SizeSquared < Tolerance * Tolerance)

end FVector

/-- Modelled from the spec: the "small epsilon" of the near-zero test, the
default tolerance of `FVector::IsNearlyZero` (engine constant). -/
def KINDA_SMALL_NUMBER : ℚ := 1 / 10000

/-- Engine rotation (pitch, yaw, roll). -/
structure FRotator where
  Pitch : ℚ
  Yaw : ℚ
  Roll : ℚ
deriving DecidableEq

/-- Engine transform as built by `FTransform(Rotation, Translation)`. -/
structure FTransform where
  Rotation : FRotator
  Translation : FVector
deriving DecidableEq

/-- The fields of the engine hit record that the projectile touches: the
blocking flag, the swept location and normal, the impact point and normal,
and the actor that was hit. -/
structure FHitResult where
  bBlockingHit : Bool
  Location : FVector
  Normal : FVector
  ImpactPoint : FVector
  ImpactNormal : FVector
  Actor : Option Nat
deriving DecidableEq

/-- A default-constructed `FHitResult`. -/
def FHitResult.init : FHitResult :=
  ⟨false, FVector.ZeroVector, FVector.ZeroVector, FVector.ZeroVector, FVector.ZeroVector, none⟩

/-- Network role of the local instance of an actor. -/
inductive ENetRole where
  | ROLE_None
  | ROLE_SimulatedProxy
  | ROLE_AutonomousProxy
  | ROLE_Authority
deriving DecidableEq

/-- Collision channels named in the source. -/
inductive ECollisionChannel where
  | ECC_WorldStatic
  | ECC_WorldDynamic
  | ECC_Pawn
  | COLLISION_PROJECTILE
deriving DecidableEq

/-- Modelled from the spec: `FProjectileWeaponData` is declared in a header
that is not among the sources; the spec lists its content as "lifetime
seconds, explosion damage amount, explosion radius, damage-type identifier".
An unset damage type is `none`. -/
structure FProjectileWeaponData where
  ProjectileLife : ℚ
  ExplosionDamage : ℚ
  ExplosionRadius : ℚ
  DamageType : Option Nat
deriving DecidableEq

/-! ## Components -/

/-- The flight particle system; `Deactivate` clears the flag. -/
structure UParticleSystemComponent where
  bIsActive : Bool
deriving DecidableEq

/-- The call `ParticleComp->Deactivate()`. -/
def UParticleSystemComponent.Deactivate (_c : UParticleSystemComponent) :
    UParticleSystemComponent := ⟨false⟩

/-- The projectile movement component: current velocity and the speeds set
by the constructor. -/
structure UProjectileMovementComponent where
  Velocity : FVector
  InitialSpeed : ℚ
  MaxSpeed : ℚ
deriving DecidableEq

/-- The call `MovementComp->StopMovementImmediately()`: the velocity becomes zero. -/
def UProjectileMovementComponent.StopMovementImmediately
    (c : UProjectileMovementComponent) : UProjectileMovementComponent :=
  { c with Velocity := FVector.ZeroVector }

/-- An audio component, as far as `DisableAndDestroy` looks at it. -/
structure UAudioComponent where
  bIsPlaying : Bool
deriving DecidableEq

/-! ## Calls to engine collaborators -/

/-- One call made by the projectile to a collaborator outside the actor. -/
inductive Call where
  | UE_LOG (Message : String)
  | ApplyRadialDamage (BaseDamage : ℚ) (Origin : FVector) (DamageRadius : ℚ)
      (DamageTypeClass : Option Nat) (IgnoreActors : List Nat) (DamageCauser : Nat)
      (InstigatedByController : Option Nat)
  | SpawnActorDeferred (Class : Nat) (SpawnTransform : FTransform)
  | FinishSpawningActor (ShouldUseDecal : Bool) (SurfaceHit : FHitResult)
      (SpawnTransform : FTransform)
  | FadeOut (FadeOutDuration : ℚ) (FadeVolumeLevel : ℚ)
  | LineTraceSingleByChannel (Start : FVector) (End : FVector)
      (TraceChannel : ECollisionChannel) (bTraceComplex : Bool) (IgnoredActor : Option Nat)
deriving DecidableEq

/-- Whether a call is the radial-damage call. -/
def Call.isApplyRadialDamage : Call → Bool
  | .ApplyRadialDamage _ _ _ _ _ _ _ => true
  | _ => false

/-- Whether a call belongs to the spawning of the explosion effect. -/
def Call.isEffectSpawn : Call → Bool
  | .SpawnActorDeferred _ _ => true
  | .FinishSpawningActor _ _ _ => true
  | _ => false

/-! ## The world and the actor -/

/-- What the projectile asks of its world: the clock, whether a deferred
spawn yields an actor, and the answer of the scene query. -/
structure UWorld where
  TimeSeconds : ℚ
  SpawnActorDeferred : Nat → FTransform → Bool
  LineTraceSingleByChannel :
    FVector → FVector → ECollisionChannel → Option Nat → Option FHitResult

/-- The projectile actor. `CollisionComp`, `ParticleComp` and `MovementComp`
are default subobjects created unconditionally by the constructor, so they
are plain fields and the null tests the source makes on them always succeed.
The audio component is looked up by class and may be absent. A timer handle
holds the world time at which its pending timer is due, `none` when no timer
is pending. -/
structure AShooterProjectile where
  UniqueID : Nat
  LocalRole : ENetRole
  ActorLocation : FVector
  ActorRotation : FRotator
  ActorForwardVector : FVector
  Instigator : Option Nat
  ParticleComp : UParticleSystemComponent
  MovementComp : UProjectileMovementComponent
  AudioComp : Option UAudioComponent
  WeaponConfig : FProjectileWeaponData
  ExplosionTemplate : Option Nat
  MyController : Option Nat
  bExploded : Bool
  mLastHit : FHitResult
  ExplosionTimerHandle : Option ℚ
  InitialLifeSpan : ℚ
  TimerHandle_LifeSpanExpired : Option ℚ
deriving DecidableEq

namespace AShooterProjectile

/-- The test `HasAuthority()`, that is `GetLocalRole() == ROLE_Authority`. -/
def HasAuthority (s : AShooterProjectile) : Bool :=
  decide (s.LocalRole = ENetRole.ROLE_Authority)

/-- The velocity reported by `GetVelocity()`: that of the root component,
which the movement component drives. -/
def GetVelocity (s : AShooterProjectile) : FVector := s.MovementComp.Velocity

/-- The engine call `SetLifeSpan`, which the spec describes as "schedules
final removal after" the given delay: the value is stored and the removal is
(re)scheduled that long from now; a non-positive value clears it. -/
def SetLifeSpan (w : UWorld) (s : AShooterProjectile) (InLifespan : ℚ) : AShooterProjectile :=
  { s with
    InitialLifeSpan := InLifespan
    TimerHandle_LifeSpanExpired :=
      if 0 < InLifespan then some (w.TimeSeconds + InLifespan) else none }

/-- The engine query `GetLifeSpan`: time left until removal, 0 when none is scheduled. -/
def GetLifeSpan (w : UWorld) (s : AShooterProjectile) : ℚ :=
  match s.TimerHandle_LifeSpanExpired with
  | some t => t - w.TimeSeconds
  | none => 0

/-- Source lines 48-62. The owner weapon, when there is one, copies its
configuration into the projectile; the lifespan is set to the configured
life and the instigator controller is remembered. The binding of `OnImpact`
to the stop delegate and the ignore list of the collision component are
engine wiring and have no field here. -/
def PostInitializeComponents (w : UWorld) (OwnerWeapon : Option FProjectileWeaponData)
    (InstigatorController : Option Nat) (s : AShooterProjectile) :
    AShooterProjectile × List Call :=
  let s1 : AShooterProjectile :=
    match OwnerWeapon with
    | some cfg => { s with WeaponConfig := cfg }
    | none => s
  let s2 := SetLifeSpan w s1 s1.WeaponConfig.ProjectileLife
  ({ s2 with MyController := InstigatorController }, [])

/-- Source lines 64-76. On the authority a one-shot timer of 3 seconds is
set on `ExplosionTimerHandle`, with `Explode` as its callback (and the
overlap callback is bound, which is engine wiring). Without authority
nothing is done. -/
def BeginPlay (w : UWorld) (s : AShooterProjectile) : AShooterProjectile × List Call :=
  if s.HasAuthority then
    ({ s with ExplosionTimerHandle := some (w.TimeSeconds + 3) }, [])
  else
    (s, [])

/-- Source lines 78-84: the velocity becomes the shoot direction times the
initial speed. -/
def InitVelocity (ShootDirection : FVector) (s : AShooterProjectile) :
    AShooterProjectile × List Call :=
  ({ s with MovementComp :=
      { s.MovementComp with Velocity := ShootDirection.scale s.MovementComp.InitialSpeed } }, [])

/-- Source lines 86-92: the hit is stored when the role is authority and the
projectile has not exploded; nothing else is done. -/
def OnImpact (HitResult : FHitResult) (s : AShooterProjectile) :
    AShooterProjectile × List Call :=
  if s.LocalRole = ENetRole.ROLE_Authority ∧ ¬ s.bExploded = true then
    ({ s with mLastHit := HitResult }, [])
  else
    (s, [])

/-- Source lines 132-144: fade out the audio component when there is one and
it is playing, stop the movement, set the lifespan to 2 seconds. -/
def DisableAndDestroy (w : UWorld) (s : AShooterProjectile) :
    AShooterProjectile × List Call :=
  let fade : List Call :=
    match s.AudioComp with
    | some ProjAudioComp =>
        if ProjAudioComp.bIsPlaying then [Call.FadeOut (1 / 10) 0] else []
    | none => []
  let s1 := { s with MovementComp := s.MovementComp.StopMovementImmediately }
  (SetLifeSpan w s1 2, fade)

/-- The origin computed at source line 107: the current location moved 10
units along the forward vector. -/
def NudgedImpactLocation (s : AShooterProjectile) : FVector :=
  s.ActorLocation.add (s.ActorForwardVector.scale 10)

/-- Source lines 109-112 of `Explode`: the radial damage, when configured. -/
def Explode_damage (s : AShooterProjectile) : List Call :=
  if 0 < s.WeaponConfig.ExplosionDamage ∧ 0 < s.WeaponConfig.ExplosionRadius
      ∧ s.WeaponConfig.DamageType.isSome = true then
    [Call.ApplyRadialDamage s.WeaponConfig.ExplosionDamage s.NudgedImpactLocation
      s.WeaponConfig.ExplosionRadius s.WeaponConfig.DamageType [] s.UniqueID s.MyController]
  else
    []

/-- Source lines 114-125 of `Explode`: the explosion effect, when a template
is set; the effect actor is finished only when the deferred spawn gave one. -/
def Explode_effect (w : UWorld) (s : AShooterProjectile) : List Call :=
  match s.ExplosionTemplate with
  | some tmpl =>
      let SpawnTransform : FTransform := ⟨s.ActorRotation, s.NudgedImpactLocation⟩
      Call.SpawnActorDeferred tmpl SpawnTransform ::
        (if w.SpawnActorDeferred tmpl SpawnTransform then
          [Call.FinishSpawningActor (!(s.GetVelocity.IsNearlyZero KINDA_SMALL_NUMBER))
            s.mLastHit SpawnTransform]
        else [])
  | none => []

/-- Source lines 94-130. There is no test of the role or of the exploded
flag: log, deactivate the particles, damage, effect, set the flag, then
`DisableAndDestroy`. -/
def Explode (w : UWorld) (s : AShooterProjectile) : AShooterProjectile × List Call :=
  let s1 := { s with ParticleComp := s.ParticleComp.Deactivate }
  let s2 := { s1 with bExploded := true }
  let r := DisableAndDestroy w s2
  (r.1, [Call.UE_LOG "EXPLOOOOOOOOOOOOSION"] ++ Explode_damage s1 ++ Explode_effect w s1 ++ r.2)

/-- The locals of `OnRep_Exploded` when its body ends (source lines 149-160):
the two ends of the trace and the impact estimate. -/
structure OnRep_Exploded_Locals where
  StartTrace : FVector
  EndTrace : FVector
  Impact : FHitResult
deriving DecidableEq

/-- Source lines 149-160: the body of `OnRep_Exploded` up to the place where
the call of `Explode(Impact)` is commented out. -/
def OnRep_Exploded_body (w : UWorld) (s : AShooterProjectile) : OnRep_Exploded_Locals :=
  let ProjDirection := s.ActorForwardVector
  let StartTrace := s.ActorLocation.sub (ProjDirection.scale 200)
  let EndTrace := s.ActorLocation.add (ProjDirection.scale 150)
  match w.LineTraceSingleByChannel StartTrace EndTrace
      ECollisionChannel.COLLISION_PROJECTILE s.Instigator with
  | some hit => ⟨StartTrace, EndTrace, hit⟩
  | none =>
      ⟨StartTrace, EndTrace,
        { FHitResult.init with ImpactPoint := s.ActorLocation, ImpactNormal := ProjDirection.neg }⟩

/-- Source lines 147-163. The estimate is dropped; the actor is untouched and
the only call is the scene query. -/
def OnRep_Exploded (w : UWorld) (s : AShooterProjectile) : AShooterProjectile × List Call :=
  let l := OnRep_Exploded_body w s
  (s, [Call.LineTraceSingleByChannel l.StartTrace l.EndTrace
        ECollisionChannel.COLLISION_PROJECTILE true s.Instigator])

/-- Source lines 166-172: the velocity is overwritten. -/
def PostNetReceiveVelocity (NewVelocity : FVector) (s : AShooterProjectile) :
    AShooterProjectile × List Call :=
  ({ s with MovementComp := { s.MovementComp with Velocity := NewVelocity } }, [])

/-- Source lines 181-184: a log line only. -/
def OnPickupOverlap (s : AShooterProjectile) : AShooterProjectile × List Call :=
  (s, [Call.UE_LOG "Begin Overlap"])

/-- Source lines 186-189: a log line only. -/
def OnPickupOverlapEnd (s : AShooterProjectile) : AShooterProjectile × List Call :=
  (s, [Call.UE_LOG "Begin End"])

/-- The timer manager serving `ExplosionTimerHandle`: the timer set by
`BeginPlay` is not looping, so when it is pending and due the handle is
cleared and the callback `Explode` runs; otherwise nothing happens. -/
def ExplosionTimerTick (w : UWorld) (s : AShooterProjectile) : AShooterProjectile × List Call :=
  match s.ExplosionTimerHandle with
  | some due =>
      if due ≤ w.TimeSeconds then Explode w { s with ExplosionTimerHandle := none }
      else (s, [])
  | none => (s, [])

end AShooterProjectile

/-! ## The actor as a transition system -/

/-- What can happen to a projectile: the engine callbacks and member
functions of the source, and the tick of the timer manager. -/
inductive Event where
  | PostInitializeComponents (OwnerWeapon : Option FProjectileWeaponData)
      (InstigatorController : Option Nat)
  | BeginPlay
  | InitVelocity (ShootDirection : FVector)
  | OnImpact (HitResult : FHitResult)
  | Explode
  | DisableAndDestroy
  | OnRep_Exploded
  | PostNetReceiveVelocity (NewVelocity : FVector)
  | OnPickupOverlap
  | OnPickupOverlapEnd
  | ExplosionTimerTick
deriving DecidableEq

/-- Whether the event runs `Explode`: the direct call and the timer tick
(which runs it when the timer is due). -/
def Event.invokesExplode : Event → Bool
  | .Explode => true
  | .ExplosionTimerTick => true
  | _ => false

/-- Events that reach a live projectile from the engine after `BeginPlay`:
stop notifications, timer ticks, replication and overlap callbacks. The
direct member calls (`Explode`, `DisableAndDestroy`) and the two start-up
callbacks, which the engine runs once, are not among them. -/
def Event.isNotification : Event → Bool
  | .OnImpact _ => true
  | .ExplosionTimerTick => true
  | .OnRep_Exploded => true
  | .PostNetReceiveVelocity _ => true
  | .OnPickupOverlap => true
  | .OnPickupOverlapEnd => true
  | .InitVelocity _ => true
  | _ => false

/-- One event, in the world as it is when the event happens. -/
def step (w : UWorld) (e : Event) (s : AShooterProjectile) : AShooterProjectile × List Call :=
  match e with
  | .PostInitializeComponents OwnerWeapon InstigatorController =>
      s.PostInitializeComponents w OwnerWeapon InstigatorController
  | .BeginPlay => s.BeginPlay w
  | .InitVelocity ShootDirection => s.InitVelocity ShootDirection
  | .OnImpact HitResult => s.OnImpact HitResult
  | .Explode => s.Explode w
  | .DisableAndDestroy => s.DisableAndDestroy w
  | .OnRep_Exploded => s.OnRep_Exploded w
  | .PostNetReceiveVelocity NewVelocity => s.PostNetReceiveVelocity NewVelocity
  | .OnPickupOverlap => s.OnPickupOverlap
  | .OnPickupOverlapEnd => s.OnPickupOverlapEnd
  | .ExplosionTimerTick => s.ExplosionTimerTick w

/-- A sequence of events, each with the world at its time; the calls are
collected in order. -/
def run : List (UWorld × Event) → AShooterProjectile → AShooterProjectile × List Call
  | [], s => (s, [])
  | (w, e) :: rest, s =>
      let r := step w e s
      let r2 := run rest r.1
      (r2.1, r.2 ++ r2.2)

/-! ## Measures on call lists -/

/-- The point at which a call places damage or an effect, for the calls that
have one: the origin of the radial damage and the translation of the spawn
transform. -/
def Call.origin : Call → Option FVector
  | .ApplyRadialDamage _ Origin _ _ _ _ _ => some Origin
  | .SpawnActorDeferred _ SpawnTransform => some SpawnTransform.Translation
  | .FinishSpawningActor _ _ SpawnTransform => some SpawnTransform.Translation
  | _ => none

/-- Number of radial-damage calls in a list of calls. -/
def damageCount (cs : List Call) : Nat := (cs.filter Call.isApplyRadialDamage).length

/-- How many explosions the pending timer can still cause. -/
def timerBudget (s : AShooterProjectile) : Nat :=
  if s.ExplosionTimerHandle.isSome then 1 else 0

/-! ## Sample data -/

/-- A world at time `t` in which every spawn succeeds and every trace misses. -/
def sampleWorld (t : ℚ) : UWorld :=
  { TimeSeconds := t
    SpawnActorDeferred := fun _ _ => true
    LineTraceSingleByChannel := fun _ _ _ _ => none }

/-- A hit on a floor: impact at (10,0,0) with normal (0,0,1). -/
def sampleHit : FHitResult :=
  { bBlockingHit := true
    Location := ⟨10, 0, 0⟩
    Normal := ⟨0, 0, 1⟩
    ImpactPoint := ⟨10, 0, 0⟩
    ImpactNormal := ⟨0, 0, 1⟩
    Actor := some 7 }

/-- A projectile with damage 50, radius 200, a damage type, an effect
template, a playing audio component and a live controller, resting at
(10,0,5) and facing down, with the given role and exploded flag. -/
def sampleProjectile (role : ENetRole) (exploded : Bool) : AShooterProjectile :=
  { UniqueID := 1
    LocalRole := role
    ActorLocation := ⟨10, 0, 5⟩
    ActorRotation := ⟨-90, 0, 0⟩
    ActorForwardVector := ⟨0, 0, -1⟩
    Instigator := some 2
    ParticleComp := ⟨true⟩
    MovementComp := ⟨FVector.ZeroVector, 2000, 2000⟩
    AudioComp := some ⟨true⟩
    WeaponConfig := ⟨10, 50, 200, some 3⟩
    ExplosionTemplate := some 4
    MyController := some 5
    bExploded := exploded
    mLastHit := sampleHit
    ExplosionTimerHandle := none
    InitialLifeSpan := 10
    TimerHandle_LifeSpanExpired := some 10 }

open AShooterProjectile

/-! ## Facts about single member functions -/

theorem DisableAndDestroy_calls_cases (w : UWorld) (s : AShooterProjectile) :
    (s.DisableAndDestroy w).2 = [] ∨ (s.DisableAndDestroy w).2 = [Call.FadeOut (1 / 10) 0] := by
  unfold DisableAndDestroy
  cases s.AudioComp with
  | none => exact Or.inl rfl
  | some a =>
    cases hp : a.bIsPlaying
    · left; simp [hp]
    · right; simp [hp]

theorem DisableAndDestroy_filter_damage (w : UWorld) (s : AShooterProjectile) :
    (s.DisableAndDestroy w).2.filter Call.isApplyRadialDamage = [] := by
  rcases DisableAndDestroy_calls_cases w s with h | h <;> rw [h] <;> rfl

theorem DisableAndDestroy_filter_effect (w : UWorld) (s : AShooterProjectile) :
    (s.DisableAndDestroy w).2.filter Call.isEffectSpawn = [] := by
  rcases DisableAndDestroy_calls_cases w s with h | h <;> rw [h] <;> rfl

theorem Explode_effect_filter_damage (w : UWorld) (s : AShooterProjectile) :
    (s.Explode_effect w).filter Call.isApplyRadialDamage = [] := by
  unfold Explode_effect
  cases s.ExplosionTemplate with
  | none => rfl
  | some t =>
    simp only
    split <;> simp [Call.isApplyRadialDamage]

theorem Explode_damage_filter_damage (s : AShooterProjectile) :
    s.Explode_damage.filter Call.isApplyRadialDamage = s.Explode_damage := by
  unfold Explode_damage
  split <;> simp [Call.isApplyRadialDamage]

theorem Explode_damage_length (s : AShooterProjectile) : s.Explode_damage.length ≤ 1 := by
  unfold Explode_damage
  split <;> simp

theorem Explode_calls (w : UWorld) (s : AShooterProjectile) :
    (s.Explode w).2 =
      [Call.UE_LOG "EXPLOOOOOOOOOOOOSION"]
        ++ Explode_damage { s with ParticleComp := s.ParticleComp.Deactivate }
        ++ Explode_effect w { s with ParticleComp := s.ParticleComp.Deactivate }
        ++ (DisableAndDestroy w
              { s with ParticleComp := s.ParticleComp.Deactivate, bExploded := true }).2 := rfl

theorem Explode_damage_congr (s : AShooterProjectile) :
    Explode_damage { s with ParticleComp := s.ParticleComp.Deactivate } = s.Explode_damage := rfl

theorem Explode_effect_congr (w : UWorld) (s : AShooterProjectile) :
    Explode_effect w { s with ParticleComp := s.ParticleComp.Deactivate } = s.Explode_effect w := rfl

theorem Explode_filter_damage (w : UWorld) (s : AShooterProjectile) :
    (s.Explode w).2.filter Call.isApplyRadialDamage = s.Explode_damage := by
  rw [Explode_calls, Explode_damage_congr, Explode_effect_congr]
  simp only [List.filter_append, DisableAndDestroy_filter_damage, Explode_effect_filter_damage,
    Explode_damage_filter_damage, List.append_nil]
  rfl

theorem Explode_bExploded (w : UWorld) (s : AShooterProjectile) :
    (s.Explode w).1.bExploded = true := rfl

theorem Explode_ExplosionTimerHandle (w : UWorld) (s : AShooterProjectile) :
    (s.Explode w).1.ExplosionTimerHandle = s.ExplosionTimerHandle := rfl

theorem damageCount_append (a b : List Call) :
    damageCount (a ++ b) = damageCount a + damageCount b := by
  simp [damageCount, List.filter_append]

theorem timerBudget_le_one (s : AShooterProjectile) : timerBudget s ≤ 1 := by
  unfold timerBudget; split <;> simp

theorem step_notification_budget (w : UWorld) (e : Event) (s : AShooterProjectile)
    (he : e.isNotification = true) :
    damageCount (step w e s).2 + timerBudget (step w e s).1 ≤ timerBudget s := by
  cases e <;> simp [Event.isNotification] at he
  case InitVelocity d => simp [step, InitVelocity, damageCount, timerBudget]
  case OnImpact h =>
    simp only [step, OnImpact]
    split <;> simp [damageCount, timerBudget]
  case OnRep_Exploded => simp [step, OnRep_Exploded, damageCount, timerBudget, Call.isApplyRadialDamage]
  case PostNetReceiveVelocity v => simp [step, PostNetReceiveVelocity, damageCount, timerBudget]
  case OnPickupOverlap => simp [step, OnPickupOverlap, damageCount, Call.isApplyRadialDamage]
  case OnPickupOverlapEnd => simp [step, OnPickupOverlapEnd, damageCount, Call.isApplyRadialDamage]
  case ExplosionTimerTick =>
    simp only [step, ExplosionTimerTick]
    cases ht : s.ExplosionTimerHandle with
    | none => simp [damageCount, timerBudget, ht]
    | some due =>
      simp only
      split
      · have h1 := Explode_damage_length { s with ExplosionTimerHandle := none }
        simp only [damageCount, Explode_filter_damage, timerBudget, Explode_ExplosionTimerHandle, ht]
        simpa using h1
      · simp [damageCount, timerBudget, ht]

theorem run_notifications_budget (evs : List (UWorld × Event)) :
    ∀ s : AShooterProjectile, (∀ p ∈ evs, p.2.isNotification = true) →
      damageCount (run evs s).2 + timerBudget (run evs s).1 ≤ timerBudget s := by
  induction evs with
  | nil => intro s _; simp [run, damageCount]
  | cons p rest ih =>
    intro s h
    obtain ⟨w, e⟩ := p
    have h1 := step_notification_budget w e s (h (w, e) (List.mem_cons_self _ _))
    have h2 := ih (step w e s).1 (fun q hq => h q (List.mem_cons_of_mem _ hq))
    simp only [run, damageCount_append]
    omega

/-! ## Facts about sequences of notifications -/

theorem step_notification_unarmed (w : UWorld) (e : Event) (s : AShooterProjectile)
    (he : e.isNotification = true) (ht : s.ExplosionTimerHandle = none) :
    (step w e s).1.bExploded = s.bExploded
      ∧ (step w e s).1.ExplosionTimerHandle = none
      ∧ (step w e s).1.InitialLifeSpan = s.InitialLifeSpan
      ∧ (step w e s).1.TimerHandle_LifeSpanExpired = s.TimerHandle_LifeSpanExpired
      ∧ (step w e s).2.filter Call.isApplyRadialDamage = []
      ∧ (step w e s).2.filter Call.isEffectSpawn = [] := by
  cases e <;> simp [Event.isNotification] at he
  case InitVelocity d => simp [step, InitVelocity, ht]
  case OnImpact h =>
    simp only [step, OnImpact]
    split <;> simp [ht]
  case OnRep_Exploded =>
    simp [step, OnRep_Exploded, ht, Call.isApplyRadialDamage, Call.isEffectSpawn]
  case PostNetReceiveVelocity v => simp [step, PostNetReceiveVelocity, ht]
  case OnPickupOverlap =>
    simp [step, OnPickupOverlap, ht, Call.isApplyRadialDamage, Call.isEffectSpawn]
  case OnPickupOverlapEnd =>
    simp [step, OnPickupOverlapEnd, ht, Call.isApplyRadialDamage, Call.isEffectSpawn]
  case ExplosionTimerTick => simp [step, ExplosionTimerTick, ht]

theorem run_notifications_unarmed (evs : List (UWorld × Event)) :
    ∀ s : AShooterProjectile, (∀ p ∈ evs, p.2.isNotification = true) →
      s.ExplosionTimerHandle = none →
      (run evs s).1.bExploded = s.bExploded
        ∧ (run evs s).1.InitialLifeSpan = s.InitialLifeSpan
        ∧ (run evs s).1.TimerHandle_LifeSpanExpired = s.TimerHandle_LifeSpanExpired
        ∧ (run evs s).2.filter Call.isApplyRadialDamage = []
        ∧ (run evs s).2.filter Call.isEffectSpawn = [] := by
  induction evs with
  | nil => intro s _ _; simp [run]
  | cons p rest ih =>
    intro s h ht
    obtain ⟨w, e⟩ := p
    obtain ⟨a1, a2, a3, a4, a5, a6⟩ :=
      step_notification_unarmed w e s (h (w, e) (List.mem_cons_self _ _)) ht
    obtain ⟨b1, b2, b3, b4, b5⟩ :=
      ih (step w e s).1 (fun q hq => h q (List.mem_cons_of_mem _ hq)) a2
    simp only [run, List.filter_append]
    exact ⟨b1.trans a1, b2.trans a3, b3.trans a4, by rw [a5, b4]; rfl, by rw [a6, b5]; rfl⟩

theorem BeginPlay_non_authority (w : UWorld) (s : AShooterProjectile)
    (h : s.LocalRole ≠ ENetRole.ROLE_Authority) : s.BeginPlay w = (s, []) := by
  simp [BeginPlay, HasAuthority, h]

/-! ## C1 -/

/-- C1, as stated, fails: on a simulated proxy that has not exploded, `Explode`
sets the exploded flag, issues the radial-damage call and spawns the effect. -/
theorem C1_counterexample :
    (sampleProjectile .ROLE_SimulatedProxy false).HasAuthority = false
      ∧ (sampleProjectile .ROLE_SimulatedProxy false).bExploded = false
      ∧ ((sampleProjectile .ROLE_SimulatedProxy false).Explode (sampleWorld 0)).1.bExploded = true
      ∧ ((sampleProjectile .ROLE_SimulatedProxy false).Explode (sampleWorld 0)).2
          = [Call.UE_LOG "EXPLOOOOOOOOOOOOSION",
             Call.ApplyRadialDamage 50 ⟨10, 0, -5⟩ 200 (some 3) [] 1 (some 5),
             Call.SpawnActorDeferred 4 ⟨⟨-90, 0, 0⟩, ⟨10, 0, -5⟩⟩,
             Call.FinishSpawningActor false sampleHit ⟨⟨-90, 0, 0⟩, ⟨10, 0, -5⟩⟩,
             Call.FadeOut (1 / 10) 0] := by
  refine ⟨rfl, rfl, rfl, ?_⟩
  norm_num [Explode, Explode_damage, Explode_effect, DisableAndDestroy, SetLifeSpan,
      sampleWorld, sampleProjectile, NudgedImpactLocation, FVector.add, FVector.scale,
      GetVelocity, FVector.IsNearlyZero, FVector.SizeSquared, FVector.ZeroVector,
      KINDA_SMALL_NUMBER, UParticleSystemComponent.Deactivate]

/-- C1, amended: the authority test is made by `BeginPlay`, not by `Explode`.
On a projectile without authority whose explosion timer is not pending,
`BeginPlay` followed by any sequence of engine notifications (stop
notifications, timer ticks, replication and overlap callbacks) keeps the
exploded flag, issues no radial-damage call, spawns no effect and leaves the
scheduled removal as it was. -/
theorem C1_non_authority_never_explodes (w0 : UWorld) (evs : List (UWorld × Event))
    (s : AShooterProjectile)
    (hrole : s.LocalRole ≠ ENetRole.ROLE_Authority)
    (htimer : s.ExplosionTimerHandle = none)
    (hevs : ∀ p ∈ evs, p.2.isNotification = true) :
    (run ((w0, Event.BeginPlay) :: evs) s).1.bExploded = s.bExploded
      ∧ (run ((w0, Event.BeginPlay) :: evs) s).2.filter Call.isApplyRadialDamage = []
      ∧ (run ((w0, Event.BeginPlay) :: evs) s).2.filter Call.isEffectSpawn = []
      ∧ (run ((w0, Event.BeginPlay) :: evs) s).1.InitialLifeSpan = s.InitialLifeSpan
      ∧ (run ((w0, Event.BeginPlay) :: evs) s).1.TimerHandle_LifeSpanExpired
          = s.TimerHandle_LifeSpanExpired := by
  obtain ⟨b1, b2, b3, b4, b5⟩ := run_notifications_unarmed evs s hevs htimer
  simp only [run, step, BeginPlay_non_authority w0 s hrole, List.nil_append]
  exact ⟨b1, b4, b5, b2, b3⟩

/-- Witness of C1 (amended): a simulated proxy receives a stop notification, a
timer tick at time 3 and the replication callback after `BeginPlay`. -/
theorem C1_non_authority_never_explodes_witness :
    (run [(sampleWorld 0, Event.BeginPlay), (sampleWorld 1, Event.OnImpact sampleHit),
          (sampleWorld 3, Event.ExplosionTimerTick), (sampleWorld 4, Event.OnRep_Exploded)]
        (sampleProjectile .ROLE_SimulatedProxy false)).1.bExploded = false
      ∧ (run [(sampleWorld 0, Event.BeginPlay), (sampleWorld 1, Event.OnImpact sampleHit),
          (sampleWorld 3, Event.ExplosionTimerTick), (sampleWorld 4, Event.OnRep_Exploded)]
        (sampleProjectile .ROLE_SimulatedProxy false)).2.filter Call.isApplyRadialDamage = [] :=
  have h := C1_non_authority_never_explodes (sampleWorld 0)
    [(sampleWorld 1, Event.OnImpact sampleHit), (sampleWorld 3, Event.ExplosionTimerTick),
      (sampleWorld 4, Event.OnRep_Exploded)]
    (sampleProjectile .ROLE_SimulatedProxy false) (by decide) rfl
    (by intro p hp; simp at hp; rcases hp with h | h | h <;> subst h <;> rfl)
  ⟨h.1, h.2.1⟩

/-! ## C2 -/

/-- C2, as stated, fails: on an authority projectile whose exploded flag is
already true, `Explode` issues the radial-damage call and spawns the effect
again; two explosion triggers in a row issue two radial-damage calls. -/
theorem C2_counterexample :
    (sampleProjectile .ROLE_Authority true).LocalRole = ENetRole.ROLE_Authority
      ∧ (sampleProjectile .ROLE_Authority true).bExploded = true
      ∧ ((sampleProjectile .ROLE_Authority true).Explode (sampleWorld 0)).2
          = [Call.UE_LOG "EXPLOOOOOOOOOOOOSION",
             Call.ApplyRadialDamage 50 ⟨10, 0, -5⟩ 200 (some 3) [] 1 (some 5),
             Call.SpawnActorDeferred 4 ⟨⟨-90, 0, 0⟩, ⟨10, 0, -5⟩⟩,
             Call.FinishSpawningActor false sampleHit ⟨⟨-90, 0, 0⟩, ⟨10, 0, -5⟩⟩,
             Call.FadeOut (1 / 10) 0]
      ∧ damageCount (run [(sampleWorld 0, Event.Explode), (sampleWorld 1, Event.Explode)]
          (sampleProjectile .ROLE_Authority false)).2 = 2 := by
  refine ⟨rfl, rfl, ?_, ?_⟩
  · norm_num [Explode, Explode_damage, Explode_effect, DisableAndDestroy, SetLifeSpan,
      sampleWorld, sampleProjectile, NudgedImpactLocation, FVector.add, FVector.scale,
      GetVelocity, FVector.IsNearlyZero, FVector.SizeSquared, FVector.ZeroVector,
      KINDA_SMALL_NUMBER, UParticleSystemComponent.Deactivate]
  · simp only [run, step, damageCount, List.filter_append, Explode_filter_damage,
      List.length_append]
    norm_num [Explode, Explode_damage, DisableAndDestroy, SetLifeSpan, sampleProjectile,
      UProjectileMovementComponent.StopMovementImmediately, UParticleSystemComponent.Deactivate]

/-- C2, amended: `Explode` has no re-entry test of its own; what bounds the
damage is that nothing but the one-shot timer set by `BeginPlay` runs it.
After `BeginPlay`, over any sequence of engine notifications (stop
notifications, timer ticks, replication and overlap callbacks) the
radial-damage call is issued at most once. -/
theorem C2_damage_at_most_once (w0 : UWorld) (evs : List (UWorld × Event))
    (s : AShooterProjectile) (hevs : ∀ p ∈ evs, p.2.isNotification = true) :
    damageCount (run ((w0, Event.BeginPlay) :: evs) s).2 ≤ 1 := by
  have h1 := run_notifications_budget evs (step w0 Event.BeginPlay s).1 hevs
  have h2 := timerBudget_le_one (step w0 Event.BeginPlay s).1
  have h3 : damageCount (step w0 Event.BeginPlay s).2 = 0 := by
    simp only [step, BeginPlay]
    split <;> rfl
  simp only [run, damageCount_append]
  omega

/-- Witness of C2 (amended): an authority projectile whose timer ticks when due
and then ticks again, with a stop notification in between; the first tick
has exploded the projectile. -/
theorem C2_damage_at_most_once_witness :
    damageCount (run [(sampleWorld 0, Event.BeginPlay), (sampleWorld 1, Event.OnImpact sampleHit),
        (sampleWorld 3, Event.ExplosionTimerTick), (sampleWorld 3, Event.OnImpact sampleHit),
        (sampleWorld 4, Event.ExplosionTimerTick)]
      (sampleProjectile .ROLE_Authority false)).2 ≤ 1
      ∧ damageCount (run [(sampleWorld 0, Event.BeginPlay),
          (sampleWorld 1, Event.OnImpact sampleHit), (sampleWorld 3, Event.ExplosionTimerTick)]
        (sampleProjectile .ROLE_Authority false)).2 = 1 :=
  And.intro (C2_damage_at_most_once (sampleWorld 0)
    [(sampleWorld 1, Event.OnImpact sampleHit),
        (sampleWorld 3, Event.ExplosionTimerTick), (sampleWorld 3, Event.OnImpact sampleHit),
        (sampleWorld 4, Event.ExplosionTimerTick)]
    (sampleProjectile .ROLE_Authority false)
    (by intro p hp; simp at hp; rcases hp with h | h | h | h <;> subst h <;> rfl))
    (by
      simp only [run, step, damageCount_append]
      norm_num [damageCount, BeginPlay, HasAuthority, OnImpact, ExplosionTimerTick, sampleWorld,
        sampleProjectile, Explode_filter_damage, Explode_damage])

theorem step_bExploded_unchanged (w : UWorld) (e : Event) (s : AShooterProjectile)
    (he : e.invokesExplode = false) : (step w e s).1.bExploded = s.bExploded := by
  cases e <;> simp [Event.invokesExplode] at he
  case PostInitializeComponents o c =>
    simp only [step, PostInitializeComponents, SetLifeSpan]
    cases o <;> rfl
  case BeginPlay =>
    simp only [step, BeginPlay]
    split <;> rfl
  case InitVelocity d => rfl
  case OnImpact h =>
    simp only [step, OnImpact]
    split <;> rfl
  case DisableAndDestroy => rfl
  case OnRep_Exploded => rfl
  case PostNetReceiveVelocity v => rfl
  case OnPickupOverlap => rfl
  case OnPickupOverlapEnd => rfl

theorem step_bExploded_stays (w : UWorld) (e : Event) (s : AShooterProjectile)
    (h : s.bExploded = true) : (step w e s).1.bExploded = true := by
  cases he : e.invokesExplode
  · rw [step_bExploded_unchanged w e s he, h]
  · cases e <;> simp [Event.invokesExplode] at he
    case Explode => rfl
    case ExplosionTimerTick =>
      simp only [step, ExplosionTimerTick]
      cases s.ExplosionTimerHandle with
      | none => exact h
      | some due =>
        simp only
        split
        · rfl
        · exact h

theorem run_bExploded_stays (evs : List (UWorld × Event)) :
    ∀ s : AShooterProjectile, s.bExploded = true → (run evs s).1.bExploded = true := by
  induction evs with
  | nil => intro s h; exact h
  | cons p rest ih =>
    intro s h
    obtain ⟨w, e⟩ := p
    exact ih (step w e s).1 (step_bExploded_stays w e s h)

/-! ## C3 -/

/-- C3: the exploded flag is monotonic. From any state in which the flag is
true, every sequence of events (all member functions of the source and the
timer tick, in any order and in any world) ends with the flag still true;
and an event that does not run `Explode` leaves the flag as it was, so
`Explode` is the only function that writes it. -/
theorem C3_bExploded_monotonic (evs : List (UWorld × Event)) (w : UWorld) (e : Event)
    (s : AShooterProjectile) :
    (s.bExploded = true → (run evs s).1.bExploded = true)
      ∧ (e.invokesExplode = false → (step w e s).1.bExploded = s.bExploded) :=
  ⟨run_bExploded_stays evs s, step_bExploded_unchanged w e s⟩

/-- Witness of C3: an exploded authority projectile goes through a stop
notification, `DisableAndDestroy`, a velocity update and `BeginPlay`. -/
theorem C3_bExploded_monotonic_witness :
    (run [(sampleWorld 3, Event.OnImpact sampleHit), (sampleWorld 4, Event.DisableAndDestroy),
          (sampleWorld 4, Event.PostNetReceiveVelocity ⟨1, 2, 3⟩), (sampleWorld 5, Event.BeginPlay)]
        (sampleProjectile .ROLE_Authority true)).1.bExploded = true
      ∧ (step (sampleWorld 3) (Event.OnImpact sampleHit)
          (sampleProjectile .ROLE_Authority false)).1.bExploded = false :=
  ⟨(C3_bExploded_monotonic _ (sampleWorld 3) (Event.OnImpact sampleHit)
      (sampleProjectile .ROLE_Authority true)).1 rfl,
   (C3_bExploded_monotonic [] (sampleWorld 3) (Event.OnImpact sampleHit)
      (sampleProjectile .ROLE_Authority false)).2 rfl⟩

/-! ## C4 -/

/-- C4: in an authority explosion of a projectile that has not exploded, the
radial-damage calls are exactly: one call with the configured damage, radius
and damage type, the nudged origin (location plus 10 times the forward
vector), no ignored actors, the projectile as causer and the stored
controller, when damage and radius are positive and a damage type is set;
and none otherwise. -/
theorem C4_radial_damage_iff_configured (w : UWorld) (s : AShooterProjectile)
    (_hrole : s.LocalRole = ENetRole.ROLE_Authority) (_hexp : s.bExploded = false) :
    (s.Explode w).2.filter Call.isApplyRadialDamage =
      if 0 < s.WeaponConfig.ExplosionDamage ∧ 0 < s.WeaponConfig.ExplosionRadius
          ∧ s.WeaponConfig.DamageType ≠ none then
        [Call.ApplyRadialDamage s.WeaponConfig.ExplosionDamage
          (s.ActorLocation.add (s.ActorForwardVector.scale 10))
          s.WeaponConfig.ExplosionRadius s.WeaponConfig.DamageType [] s.UniqueID s.MyController]
      else [] := by
  rw [Explode_filter_damage]
  unfold Explode_damage NudgedImpactLocation
  cases s.WeaponConfig.DamageType <;> simp

/-- Witness of C4: damage 50, radius 200, damage type 3, at (10,0,5) facing down. -/
theorem C4_radial_damage_iff_configured_witness :
    ((sampleProjectile .ROLE_Authority false).Explode (sampleWorld 3)).2.filter
        Call.isApplyRadialDamage
      = [Call.ApplyRadialDamage 50 ⟨10, 0, -5⟩ 200 (some 3) [] 1 (some 5)] := by
  rw [C4_radial_damage_iff_configured (sampleWorld 3) (sampleProjectile .ROLE_Authority false)
    rfl rfl]
  simp [sampleProjectile, FVector.add, FVector.scale]
  norm_num

/-! ## C5 -/

/-- C5, on the code at the failing input: a stop on a floor at (10,0,0) with
normal (0,0,1) is recorded, the projectile rests at (10,0,5) facing down.
The recorded impact gives the origin (10,0,10) that the claim states; the
radial damage and the spawn transform of `Explode` are placed at (10,0,-5),
the location moved 10 units along the forward vector, which lies below the
floor although the source comment at the nudge reads "effects and damage
origin shouldn't be placed inside mesh at impact point". -/
theorem C5_origin_at_floor_impact :
    ((sampleProjectile .ROLE_Authority false).OnImpact sampleHit).1.mLastHit = sampleHit
      ∧ sampleHit.ImpactPoint.add (sampleHit.ImpactNormal.scale 10) = ⟨10, 0, 10⟩
      ∧ sampleHit.Location.add (sampleHit.Normal.scale 10) = ⟨10, 0, 10⟩
      ∧ ((((sampleProjectile .ROLE_Authority false).OnImpact sampleHit).1.Explode
            (sampleWorld 3)).2.filterMap Call.origin
          = [⟨10, 0, -5⟩, ⟨10, 0, -5⟩, ⟨10, 0, -5⟩])
      ∧ (⟨10, 0, -5⟩ : FVector) ≠ ⟨10, 0, 10⟩
      ∧ (⟨10, 0, -5⟩ : FVector).Z < sampleHit.ImpactPoint.Z := by
  refine ⟨rfl, ?_, ?_, ?_, ?_, ?_⟩
  · norm_num [sampleHit, FVector.add, FVector.scale]
  · norm_num [sampleHit, FVector.add, FVector.scale]
  · norm_num [OnImpact, Explode, Explode_damage, Explode_effect, DisableAndDestroy, SetLifeSpan,
      sampleWorld, sampleProjectile, NudgedImpactLocation, FVector.add, FVector.scale,
      GetVelocity, FVector.IsNearlyZero, FVector.SizeSquared, FVector.ZeroVector,
      KINDA_SMALL_NUMBER, UParticleSystemComponent.Deactivate]
    rfl
  · intro h
    have hz := congrArg FVector.Z h
    norm_num at hz
  · norm_num [sampleHit]

/-! ## C6 -/

/-- C6, on the code: when a template is set and the deferred spawn gives an
actor, the effect is finished with its decal flag set to the negation of the
near-zero test on the velocity. The source comment at the assignment reads
"use decal if the velocity is 0ish"; the assignment does the opposite. -/
theorem C6_decal_flag_negates_near_zero (w : UWorld) (s : AShooterProjectile) (tmpl : Nat)
    (ht : s.ExplosionTemplate = some tmpl)
    (hs : w.SpawnActorDeferred tmpl ⟨s.ActorRotation, s.NudgedImpactLocation⟩ = true) :
    (s.Explode w).2.filter Call.isEffectSpawn =
      [Call.SpawnActorDeferred tmpl ⟨s.ActorRotation, s.NudgedImpactLocation⟩,
       Call.FinishSpawningActor (!(s.GetVelocity.IsNearlyZero KINDA_SMALL_NUMBER)) s.mLastHit
         ⟨s.ActorRotation, s.NudgedImpactLocation⟩] := by
  have hd : s.Explode_damage.filter Call.isEffectSpawn = [] := by
    unfold Explode_damage
    split <;> simp [Call.isEffectSpawn]
  have he : s.Explode_effect w =
      [Call.SpawnActorDeferred tmpl ⟨s.ActorRotation, s.NudgedImpactLocation⟩,
       Call.FinishSpawningActor (!(s.GetVelocity.IsNearlyZero KINDA_SMALL_NUMBER)) s.mLastHit
         ⟨s.ActorRotation, s.NudgedImpactLocation⟩] := by
    unfold Explode_effect
    simp [ht, hs]
  rw [Explode_calls, Explode_damage_congr, Explode_effect_congr]
  simp only [List.filter_append, DisableAndDestroy_filter_effect, hd, he, List.append_nil]
  simp [Call.isEffectSpawn]

/-- Failing input of C6: the projectile is at rest (velocity zero, which the
near-zero test accepts) and the effect is finished with the decal flag false. -/
theorem C6_decal_flag_negates_near_zero_witness :
    (sampleProjectile .ROLE_Authority false).GetVelocity = ⟨0, 0, 0⟩
      ∧ (sampleProjectile .ROLE_Authority false).GetVelocity.IsNearlyZero KINDA_SMALL_NUMBER = true
      ∧ ((sampleProjectile .ROLE_Authority false).Explode (sampleWorld 3)).2.filter
          Call.isEffectSpawn
        = [Call.SpawnActorDeferred 4 ⟨⟨-90, 0, 0⟩, ⟨10, 0, -5⟩⟩,
           Call.FinishSpawningActor false sampleHit ⟨⟨-90, 0, 0⟩, ⟨10, 0, -5⟩⟩] := by
  refine ⟨rfl, ?_, ?_⟩
  · norm_num [sampleProjectile, GetVelocity, FVector.IsNearlyZero, FVector.SizeSquared,
      FVector.ZeroVector, KINDA_SMALL_NUMBER]
  · rw [C6_decal_flag_negates_near_zero (sampleWorld 3) (sampleProjectile .ROLE_Authority false)
      4 rfl rfl]
    norm_num [sampleProjectile, GetVelocity, FVector.IsNearlyZero, FVector.SizeSquared,
      FVector.ZeroVector, KINDA_SMALL_NUMBER, NudgedImpactLocation, FVector.add, FVector.scale]

/-! ## C7 -/

/-- C7, as stated, fails: `DisableAndDestroy` is called at time 3 (removal
scheduled for time 5) and again one second later, when the fade of the audio
has ended; the second call moves the removal to time 6, later than 2 seconds
after the first call. -/
theorem C7_counterexample :
    ((sampleProjectile .ROLE_Authority true).DisableAndDestroy
        (sampleWorld 3)).1.TimerHandle_LifeSpanExpired = some (3 + 2)
      ∧ (DisableAndDestroy (sampleWorld (3 + 1))
          { ((sampleProjectile .ROLE_Authority true).DisableAndDestroy (sampleWorld 3)).1 with
            AudioComp := some ⟨false⟩ }).1.TimerHandle_LifeSpanExpired = some 6
      ∧ ¬ ((6 : ℚ) ≤ 3 + 2) := by
  refine ⟨?_, ?_, ?_⟩
  · norm_num [DisableAndDestroy, SetLifeSpan, sampleWorld]
  · norm_num [DisableAndDestroy, SetLifeSpan, sampleWorld]
  · norm_num

/-- C7, amended: a second call of `DisableAndDestroy`, `t` seconds after the
first, leaves the movement stopped, fades the audio out again exactly when an
audio component is present and playing at that moment, and schedules the
removal 2 seconds after the second call, which is `t` seconds later than the
first call scheduled it (the same time only for `t = 0`). The audio state
`a` at the second call is whatever the engine has made of it meanwhile. -/
theorem C7_second_call_reschedules (w : UWorld) (s : AShooterProjectile) (t : ℚ)
    (a : Option UAudioComponent) (_ht : 0 ≤ t) :
    (s.DisableAndDestroy w).1.TimerHandle_LifeSpanExpired = some (w.TimeSeconds + 2)
      ∧ (DisableAndDestroy { w with TimeSeconds := w.TimeSeconds + t }
          { (s.DisableAndDestroy w).1 with AudioComp := a }).1.TimerHandle_LifeSpanExpired
          = some (w.TimeSeconds + 2 + t)
      ∧ (DisableAndDestroy { w with TimeSeconds := w.TimeSeconds + t }
          { (s.DisableAndDestroy w).1 with AudioComp := a }).2
          = (if a = some ⟨true⟩ then [Call.FadeOut (1 / 10) 0] else [])
      ∧ (DisableAndDestroy { w with TimeSeconds := w.TimeSeconds + t }
          { (s.DisableAndDestroy w).1 with AudioComp := a }).1.MovementComp
          = (s.DisableAndDestroy w).1.MovementComp := by
  refine ⟨?_, ?_, ?_, ?_⟩
  · simp [DisableAndDestroy, SetLifeSpan]
  · simp [DisableAndDestroy, SetLifeSpan]
    ring
  · simp only [DisableAndDestroy]
    rcases a with _ | ⟨_ | _⟩ <;> simp
  · simp [DisableAndDestroy, SetLifeSpan, UProjectileMovementComponent.StopMovementImmediately]

/-- Witness of C7 (amended): calls at times 3 and 4, audio silent by then. -/
theorem C7_second_call_reschedules_witness :
    (0 : ℚ) ≤ 1
      ∧ (DisableAndDestroy { sampleWorld 3 with TimeSeconds := (sampleWorld 3).TimeSeconds + 1 }
          { ((sampleProjectile .ROLE_Authority true).DisableAndDestroy (sampleWorld 3)).1 with
            AudioComp := some ⟨false⟩ }).1.TimerHandle_LifeSpanExpired
          = some ((sampleWorld 3).TimeSeconds + 2 + 1) :=
  ⟨by norm_num,
   (C7_second_call_reschedules (sampleWorld 3) (sampleProjectile .ROLE_Authority true) 1
      (some ⟨false⟩) (by norm_num)).2.1⟩

/-! ## C8 -/

/-- C8: `OnImpact` never explodes. It makes no call at all and leaves the
exploded flag, the lifespan, the removal timer and the explosion timer as
they were; the last-hit record becomes the given hit when the role is
authority and the projectile has not exploded, and is unchanged otherwise. -/
theorem C8_OnImpact_only_records (hit : FHitResult) (s : AShooterProjectile) :
    (s.OnImpact hit).2 = []
      ∧ (s.OnImpact hit).1.bExploded = s.bExploded
      ∧ (s.OnImpact hit).1.InitialLifeSpan = s.InitialLifeSpan
      ∧ (s.OnImpact hit).1.TimerHandle_LifeSpanExpired = s.TimerHandle_LifeSpanExpired
      ∧ (s.OnImpact hit).1.ExplosionTimerHandle = s.ExplosionTimerHandle
      ∧ (s.OnImpact hit).1.mLastHit =
          (if s.LocalRole = ENetRole.ROLE_Authority ∧ s.bExploded = false then hit
           else s.mLastHit)
      ∧ (s.OnImpact hit).1 = { s with mLastHit := (s.OnImpact hit).1.mLastHit } := by
  unfold OnImpact
  by_cases h : s.LocalRole = ENetRole.ROLE_Authority ∧ ¬ s.bExploded = true
  · rw [if_pos h]
    have h2 : s.LocalRole = ENetRole.ROLE_Authority ∧ s.bExploded = false := by
      simpa using h
    simp [h2]
  · rw [if_neg h]
    have h2 : ¬ (s.LocalRole = ENetRole.ROLE_Authority ∧ s.bExploded = false) := by
      simpa using h
    simp [h2]

/-! ## C9 -/

/-- C9: on an authority projectile that has not exploded, whatever the
configuration, `Explode` (a total function) ends with the exploded flag
true, the velocity zero, and the removal scheduled exactly 2 seconds from
now, so that the remaining lifespan is 2 whatever it was before. -/
theorem C9_Explode_completes (w : UWorld) (s : AShooterProjectile)
    (_hrole : s.LocalRole = ENetRole.ROLE_Authority) (_hexp : s.bExploded = false) :
    (s.Explode w).1.bExploded = true
      ∧ (s.Explode w).1.MovementComp.Velocity = FVector.ZeroVector
      ∧ (s.Explode w).1.InitialLifeSpan = 2
      ∧ (s.Explode w).1.TimerHandle_LifeSpanExpired = some (w.TimeSeconds + 2)
      ∧ GetLifeSpan w (s.Explode w).1 = 2 := by
  refine ⟨rfl, rfl, rfl, ?_, ?_⟩
  · simp [Explode, DisableAndDestroy, SetLifeSpan]
  · simp [GetLifeSpan, Explode, DisableAndDestroy, SetLifeSpan]

/-- Witness of C9: no damage type, no damage, no radius, no template, no
audio component, no controller; 7 seconds of lifespan were left. -/
theorem C9_Explode_completes_witness :
    GetLifeSpan (sampleWorld 3)
        (Explode (sampleWorld 3)
          { sampleProjectile .ROLE_Authority false with
            WeaponConfig := ⟨10, 0, 0, none⟩
            ExplosionTemplate := none
            AudioComp := none
            MyController := none }).1 = 2 :=
  (C9_Explode_completes (sampleWorld 3)
    { sampleProjectile .ROLE_Authority false with
      WeaponConfig := ⟨10, 0, 0, none⟩
      ExplosionTemplate := none
      AudioComp := none
      MyController := none } rfl rfl).2.2.2.2

/-! ## C10 -/

/-- C10: `OnRep_Exploded` is a total function that returns the actor as it
was and makes one call only, the line trace from the location minus 200
times the forward vector to the location plus 150 times the forward vector,
on the projectile channel, ignoring the instigator. Its impact estimate is
the hit of the trace when there is one; when there is none it has the
location as impact point and the reversed forward vector as impact normal. -/
theorem C10_OnRep_Exploded_estimate (w : UWorld) (s : AShooterProjectile) :
    (s.OnRep_Exploded w).1 = s
      ∧ (s.OnRep_Exploded w).2 =
          [Call.LineTraceSingleByChannel (s.ActorLocation.sub (s.ActorForwardVector.scale 200))
            (s.ActorLocation.add (s.ActorForwardVector.scale 150))
            ECollisionChannel.COLLISION_PROJECTILE true s.Instigator]
      ∧ (∀ hit : FHitResult,
          w.LineTraceSingleByChannel (s.ActorLocation.sub (s.ActorForwardVector.scale 200))
            (s.ActorLocation.add (s.ActorForwardVector.scale 150))
            ECollisionChannel.COLLISION_PROJECTILE s.Instigator = some hit →
          (s.OnRep_Exploded_body w).Impact = hit)
      ∧ (w.LineTraceSingleByChannel (s.ActorLocation.sub (s.ActorForwardVector.scale 200))
            (s.ActorLocation.add (s.ActorForwardVector.scale 150))
            ECollisionChannel.COLLISION_PROJECTILE s.Instigator = none →
          (s.OnRep_Exploded_body w).Impact.ImpactPoint = s.ActorLocation
            ∧ (s.OnRep_Exploded_body w).Impact.ImpactNormal = s.ActorForwardVector.neg) := by
  refine ⟨rfl, ?_, ?_, ?_⟩
  · unfold OnRep_Exploded OnRep_Exploded_body
    simp only
    split <;> rfl
  · intro hit h
    unfold OnRep_Exploded_body
    simp only [h]
  · intro h
    unfold OnRep_Exploded_body
    simp [h]

/-- Witness of C10: the trace misses for a proxy at (10,0,5) facing down; the
estimate is the point (10,0,5) with normal (0,0,1). A world whose trace hits
gives that hit. -/
theorem C10_OnRep_Exploded_estimate_witness :
    ((sampleProjectile .ROLE_SimulatedProxy true).OnRep_Exploded_body
        (sampleWorld 3)).Impact.ImpactPoint = ⟨10, 0, 5⟩
      ∧ ((sampleProjectile .ROLE_SimulatedProxy true).OnRep_Exploded_body
        (sampleWorld 3)).Impact.ImpactNormal = FVector.neg ⟨0, 0, -1⟩
      ∧ ((sampleProjectile .ROLE_SimulatedProxy true).OnRep_Exploded_body
          { sampleWorld 3 with LineTraceSingleByChannel := fun _ _ _ _ => some sampleHit }).Impact
          = sampleHit :=
  ⟨((C10_OnRep_Exploded_estimate (sampleWorld 3)
      (sampleProjectile .ROLE_SimulatedProxy true)).2.2.2 rfl).1,
   ((C10_OnRep_Exploded_estimate (sampleWorld 3)
      (sampleProjectile .ROLE_SimulatedProxy true)).2.2.2 rfl).2,
   (C10_OnRep_Exploded_estimate
      { sampleWorld 3 with LineTraceSingleByChannel := fun _ _ _ _ => some sampleHit }
      (sampleProjectile .ROLE_SimulatedProxy true)).2.2.1 sampleHit rfl⟩

end ShooterGame
